import Mathlib

/-!
Verification development for the floating chat widget controller.

The definitions below are a shallow embedding of the chat widget script:
the global `chatState` object, its view-state transitions
(`showChatList`, `showChatDetail`, `closeChatWindow`, `toggleChatWindow`),
room-id resolution (`loadChatMessages`), the WebSocket lifecycle
(`connectWebSocket`, the `onmessage` delivery filter), message sending
with its single reconnect-and-retry (`sendMessage`), the chat-list
filtering (`renderChatList`), and the read-receipt flow
(`markMessagesAsRead`).

DOM effects are modelled by explicit state: the message pane is a
`Pane`, user-visible `alert(...)` calls are accumulated in `alerts`,
outbound WebSocket frames in `sentFrames`, issued history fetches in
`pendingLoads`, issued read-receipt POSTs in `pendingMarkReads`, and
calls to `loadChatRooms` (directory refreshes) are counted by
`directoryFetches`.  WebSocket objects ever created are kept in
`sockets`; the `chatSocket` field of the state is an index into that
list (`none` models the JS `null`).
-/

set_option autoImplicit false

namespace ChatWidget

/-- View mode of the widget: `chatState.currentView` is `'list'` or `'detail'`. -/
inductive ViewMode
  | list
  | detail
deriving DecidableEq, Repr

/-- Read filter of the chat list: `chatState.filter` is `'all'` or `'unread'`. -/
inductive FilterMode
  | all
  | unread
deriving DecidableEq, Repr

/-- Lifecycle state of one WebSocket object.  `connecting` is the state right
after `new WebSocket(...)` (readyState CONNECTING), `opened` after the
`onopen` event (readyState OPEN), `closedSt` after `close()` was called or
the server closed the connection (readyState CLOSING/CLOSED). -/
inductive SockState
  | connecting
  | opened
  | closedSt
deriving DecidableEq, Repr

/-- One WebSocket object as created by `connectWebSocket`. -/
structure SocketConn where
  room : String
  isBot : Bool
  state : SockState
deriving DecidableEq, Repr

/-- One rendered chat line in the message pane (argument shape of
`addMessageToChat`). -/
structure Msg where
  content : String
  senderName : String
  isSent : Bool
  senderId : Int
deriving DecidableEq, Repr

/-- Placeholder contents the code writes into `chatMessages.innerHTML`. -/
inductive PlaceholderKind
  | empty
  | loading
  | invalidRoom
  | noMessages
  | loadError
deriving DecidableEq, Repr

/-- The message pane (`#chatMessages`): either one of the textual
placeholders or a list of rendered message rows. -/
inductive Pane
  | placeholder (kind : PlaceholderKind)
  | messages (rows : List Msg)
deriving DecidableEq, Repr

/-- User-visible `alert(...)` calls issued by the widget. -/
inductive AlertKind
  | selectConversation
  | unableToConnect
  | featureInDevelopment
deriving DecidableEq, Repr

/-- The `otherUser` argument of `showChatDetail`. -/
structure OtherUser where
  user_id : Int
  full_name : String
  email : String
  avatar : Option String
deriving DecidableEq, Repr

/-- One room entry as mapped from the directory response in `loadChatRooms`. -/
structure RoomInfo where
  userId : Int
  name : String
  lastMessage : String
  roomName : String
  unreadCount : Nat
  isBot : Bool
deriving DecidableEq, Repr

/-- One inbound WebSocket frame as read by the `onmessage` handler.
`sender_id = none` models an absent/undefined or null `sender_id` field. -/
structure Frame where
  sender_id : Option Int
  message : String
  is_bot : Bool
  username : Option String
  sender_avatar : Option String
deriving DecidableEq, Repr

/-- One record of the history response (`data.messages` element). -/
structure HistMsg where
  sender_id : Int
  sender_name : String
  sender_avatar : Option String
  content : String
  created_at : String
deriving DecidableEq, Repr

/-- An issued, not yet completed history fetch
(`fetch('/chat/api/messages/' + otherUserId + '/')`).
`otherUserId = none` models a NaN user id in the URL. -/
structure PendingLoad where
  room : String
  otherUserId : Option Int
deriving DecidableEq, Repr

/-- A scheduled `setTimeout` retry from `sendMessage`, carrying the captured
message text and the timeout delay in milliseconds. -/
structure RetryTimer where
  text : String
  delayMs : Nat
deriving DecidableEq, Repr

/-- Result of a history fetch: `err` is a network error or non-2xx status,
`ok msgs` a parsed `{messages: [...]}` body. -/
inductive HistoryResult
  | err
  | ok (messages : List HistMsg)
deriving DecidableEq, Repr

/-- Result of the read-receipt POST: `err` is a network error, `ok success
updated` a parsed `{success, updated}` body. -/
inductive MarkReadResult
  | err
  | ok (success : Bool) (updated : Nat)
deriving DecidableEq, Repr

/-- The whole widget state: the fields of the JS `chatState` object plus the
explicitly-modelled effect state (pane, alerts, sockets, issued requests). -/
structure Sys where
  isOpen : Bool
  isMinimized : Bool
  currentView : ViewMode
  currentRoom : Option String
  currentUserId : Int
  currentOtherUserId : Option Int
  currentIsBot : Bool
  filterMode : FilterMode
  searchQuery : String
  chatRooms : List RoomInfo
  chatSocket : Option Nat
  sockets : List SocketConn
  pane : Pane
  alerts : List AlertKind
  sentFrames : List (Nat × String)
  pendingLoads : List PendingLoad
  pendingRetries : List RetryTimer
  pendingMarkReads : List (Option Int)
  directoryFetches : Nat
deriving DecidableEq, Repr

/-- Initial state: the `chatState` literal at the top of the script, after the
DOMContentLoaded handler has set `currentUserId` and called `loadChatRooms`
once. -/
def initSys (uid : Int) : Sys where
  isOpen := false
  isMinimized := false
  currentView := .list
  currentRoom := none
  currentUserId := uid
  currentOtherUserId := none
  currentIsBot := false
  filterMode := .all
  searchQuery := ""
  chatRooms := []
  chatSocket := none
  sockets := []
  pane := .placeholder .empty
  alerts := []
  sentFrames := []
  pendingLoads := []
  pendingRetries := []
  pendingMarkReads := []
  directoryFetches := 1

/-- The leading decimal digits of a character list. -/
def leadingDigits (l : List Char) : List Char :=
  l.takeWhile Char.isDigit

/-- Value of a non-empty digit list in base 10, `none` when empty. -/
def digitsToNat (l : List Char) : Option Nat :=
  if l = [] then none
  else some (l.foldl (fun a c => a * 10 + (c.toNat - 48)) 0)

/-- JavaScript `parseInt(s)` restricted to an optional minus sign followed by
decimal digits: reads the longest digit run at the front and returns `none`
(NaN) when there is none. -/
def jsParseInt (s : String) : Option Int :=
  match s.data with
  | '-' :: rest => (digitsToNat (leadingDigits rest)).map (fun n => -(n : Int))
  | l => (digitsToNat (leadingDigits l)).map (fun n => (n : Int))

/-- Split a character list at every occurrence of `sep` (the semantics of
JavaScript `String.prototype.split` with a single-character separator). -/
def splitOnChar (sep : Char) : List Char → List (List Char)
  | [] => [[]]
  | c :: rest =>
      if c = sep then [] :: splitOnChar sep rest
      else
        match splitOnChar sep rest with
        | [] => [[c]]
        | h :: t => (c :: h) :: t

/-- Model of `roomName.split('_')`. -/
def jsSplitUnderscore (s : String) : List String :=
  (splitOnChar '_' s.data).map String.mk

/-- Outcome of the room-id decomposition at the top of `loadChatMessages`. -/
inductive Resolve
  | malformed
  | resolved (id : Option Int)
deriving DecidableEq, Repr

/-- Room-id decomposition from `loadChatMessages`: split the room name on
underscores; with fewer than three parts the room id is malformed; otherwise
parse parts 1 and 2 as the participant ids and pick the one that is not the
current user's id (a NaN `userId1` is never strictly equal to the current
user's id, so it is then picked). -/
def resolveOtherUserId (roomName : String) (currentUserId : Int) : Resolve :=
  if (jsSplitUnderscore roomName).length < 3 then .malformed
  else
    Resolve.resolved
      (if jsParseInt ((jsSplitUnderscore roomName).getD 1 "") = some currentUserId
       then jsParseInt ((jsSplitUnderscore roomName).getD 2 "")
       else jsParseInt ((jsSplitUnderscore roomName).getD 1 ""))

/-- JavaScript `String.prototype.trim`: strip leading and trailing
whitespace. -/
def jsTrim (s : String) : String :=
  String.mk (((s.data.dropWhile Char.isWhitespace).reverse.dropWhile Char.isWhitespace).reverse)

/-- Case-insensitive view of a string, character by character
(`toLowerCase()`). -/
def lowerChars (s : String) : List Char :=
  s.data.map Char.toLower

/-- The search predicate of `renderChatList`:
`room.name.toLowerCase().includes(searchQuery.toLowerCase())`. -/
def nameMatches (room : RoomInfo) (q : String) : Bool :=
  decide (lowerChars q <:+: lowerChars room.name)

/-- The filtering pipeline of `renderChatList`: apply the search filter when
the query is non-empty, then the unread filter when the filter mode is
`unread`. -/
def filteredRooms (rooms : List RoomInfo) (q : String) (f : FilterMode) : List RoomInfo :=
  let r1 := if q ≠ "" then rooms.filter (fun room => nameMatches room q) else rooms
  if f = .unread then r1.filter (fun room => room.unreadCount > 0) else r1

/-- Append one rendered message row to the pane: `addMessageToChat` first
removes a textual placeholder if present, then appends the new row. -/
def paneAppend (p : Pane) (m : Msg) : Pane :=
  match p with
  | .placeholder _ => .messages [m]
  | .messages rows => .messages (rows ++ [m])

/-- The optimistic message `sendMessage` shows immediately:
`addMessageToChat(message, 'You', true, chatState.currentUserId)`. -/
def mkOptimisticMsg (s : Sys) (text : String) : Msg where
  content := text
  senderName := "You"
  isSent := true
  senderId := s.currentUserId

/-- JavaScript truthiness of the `sender_id` field: absent/null and `0` are
falsy. -/
def senderTruthy : Option Int → Bool
  | none => false
  | some v => v != 0

/-- The delivery filter of the `onmessage` handler:
`data.sender_id && (data.sender_id !== chatState.currentUserId || isBotRoom)`. -/
def surfaces (s : Sys) (f : Frame) : Bool :=
  senderTruthy f.sender_id &&
    (f.sender_id != some s.currentUserId || s.currentIsBot)

/-- The pane row built from an inbound frame by
`addMessageToChat(data.message, data.username || 'Bot', false, data.sender_id, ...)`. -/
def liveMsg (f : Frame) : Msg where
  content := f.message
  senderName := f.username.getD "Bot"
  isSent := false
  senderId := f.sender_id.getD 0

/-- The `onmessage` handler proper: append the frame when the delivery filter
passes, otherwise leave the state untouched. -/
def onMessage (s : Sys) (f : Frame) : Sys :=
  if surfaces s f then { s with pane := paneAppend s.pane (liveMsg f) }
  else s

/-- A closed copy of a socket object. -/
def closeSock (c : SocketConn) : SocketConn :=
  { c with state := .closedSt }

/-- The recurring pattern
`if (chatState.chatSocket) { chatState.chatSocket.close(); chatState.chatSocket = null; }`. -/
def closeCurrentSocket (s : Sys) : Sys :=
  match s.chatSocket with
  | none => s
  | some i =>
      { s with
        sockets := s.sockets.set i (closeSock (s.sockets.getD i ⟨"", false, .closedSt⟩))
        chatSocket := none }

/-- Embedding of `connectWebSocket(roomName)`: close any existing connection, then create a
new WebSocket on the bot or private sub-channel (selected by
`chatState.currentIsBot`) and store it in `chatState.chatSocket`. -/
def connectWebSocket (s : Sys) (roomName : String) : Sys :=
  let s1 := closeCurrentSocket s
  { s1 with
    sockets := s1.sockets ++ [⟨roomName, s1.currentIsBot, .connecting⟩]
    chatSocket := some s1.sockets.length }

/-- Embedding of `showChatList()`: reset the detail-view fields, then close and null the
WebSocket. -/
def showChatList (s : Sys) : Sys :=
  closeCurrentSocket
    { s with
      currentView := .list
      currentRoom := none
      currentOtherUserId := none
      currentIsBot := false }

/-- Embedding of `loadChatMessages(roomName)`: decompose the room id; on a malformed id
write the invalid-room error into the pane and stop (no fetch); otherwise
issue the history fetch for the resolved counterpart id. -/
def loadChatMessages (s : Sys) (roomName : String) : Sys :=
  match resolveOtherUserId roomName s.currentUserId with
  | .malformed => { s with pane := .placeholder .invalidRoom }
  | .resolved other =>
      { s with pendingLoads := s.pendingLoads ++ [⟨roomName, other⟩] }

/-- Embedding of `showChatDetail(roomName, otherUser, isBot)`: guarded by a falsy check on
`roomName`; sets the detail-view fields, shows the loading placeholder,
calls `loadChatMessages`, then unconditionally calls `connectWebSocket`. -/
def showChatDetail (s : Sys) (roomName : String) (other : OtherUser) (isBot : Bool) : Sys :=
  if roomName = "" then s
  else
    let s1 := { s with
      currentView := .detail
      currentRoom := some roomName
      currentOtherUserId := some other.user_id
      currentIsBot := isBot
      pane := .placeholder .loading }
    let s2 := loadChatMessages s1 roomName
    connectWebSocket s2 roomName

/-- Embedding of `closeChatWindow()`: mark the widget closed, close and null the WebSocket,
then fall back to the list view via `showChatList`. -/
def closeChatWindow (s : Sys) : Sys :=
  showChatList (closeCurrentSocket { s with isOpen := false })

/-- Embedding of `toggleChatWindow()`: flip `isOpen`; when opening, `loadChatRooms()` is
called (one more directory fetch). -/
def toggleChatWindow (s : Sys) : Sys :=
  let s1 := { s with isOpen := !s.isOpen }
  if s1.isOpen then { s1 with directoryFetches := s1.directoryFetches + 1 } else s1

/-- The readiness test `chatState.chatSocket && chatState.chatSocket.readyState === WebSocket.OPEN`. -/
def socketReady (s : Sys) : Bool :=
  match s.chatSocket with
  | some i => (s.sockets.getD i ⟨"", false, .closedSt⟩).state = .opened
  | none => false

/-- Embedding of `sendMessage()`: trim the input; return on empty text; alert and return
when no room is selected; otherwise append the optimistic message, then
either send on the open socket or reconnect once and schedule a single
500 ms retry. -/
def sendMessage (s : Sys) (input : String) : Sys :=
  let message := jsTrim input
  if message = "" then s
  else
    match s.currentRoom with
    | none => { s with alerts := s.alerts ++ [.selectConversation] }
    | some room =>
        let s1 := { s with pane := paneAppend s.pane (mkOptimisticMsg s message) }
        if socketReady s1 then
          match s1.chatSocket with
          | some i => { s1 with sentFrames := s1.sentFrames ++ [(i, message)] }
          | none => s1
        else
          let s2 := connectWebSocket s1 room
          { s2 with pendingRetries := s2.pendingRetries ++ [⟨message, 500⟩] }

/-- Body of the `setTimeout` callback in `sendMessage`: if the socket is open
by now, send the captured text; otherwise alert that the connection failed.
The pane is not touched either way. -/
def retryStep (s : Sys) (t : RetryTimer) : Sys :=
  if socketReady s then
    match s.chatSocket with
    | some i => { s with sentFrames := s.sentFrames ++ [(i, t.text)] }
    | none => s
  else { s with alerts := s.alerts ++ [.unableToConnect] }

/-- Fire the oldest scheduled retry timer, if any. -/
def fireNextRetry (s : Sys) : Sys :=
  match s.pendingRetries with
  | [] => s
  | t :: rest => retryStep { s with pendingRetries := rest } t

/-- Rendering of one history record into a pane row (the `.map` body of the
history `.then` handler). -/
def renderHistMsg (s : Sys) (m : HistMsg) : Msg where
  content := m.content
  senderName := m.sender_name
  isSent := m.sender_id = s.currentUserId
  senderId := m.sender_id

/-- Completion of a history fetch (the `.then`/`.catch` handlers of
`loadChatMessages`): an error writes the load-error placeholder; an empty
message list writes the no-messages placeholder and stops; otherwise the
messages are rendered into the pane and `markMessagesAsRead(otherUserId)`
issues the read-receipt POST.  The current room is never consulted. -/
def historyArrives (s : Sys) (ld : PendingLoad) (res : HistoryResult) : Sys :=
  match res with
  | .err => { s with pane := .placeholder .loadError }
  | .ok msgs =>
      if msgs = [] then { s with pane := .placeholder .noMessages }
      else
        { s with
          pane := .messages (msgs.map (renderHistMsg s))
          pendingMarkReads := s.pendingMarkReads ++ [ld.otherUserId] }

/-- Completion of the read-receipt POST (`markMessagesAsRead` handlers): on a
`{success: true}` body, `loadChatRooms()` refreshes the directory; on
`success: false` or a network error nothing happens. -/
def markReadArrives (s : Sys) (r : MarkReadResult) : Sys :=
  match r with
  | .ok true _ => { s with directoryFetches := s.directoryFetches + 1 }
  | _ => s

/-- The `onopen` event of socket `i`: a socket that is still connecting
becomes open; a socket already closed by `close()` never fires `onopen`. -/
def sockOpened (s : Sys) (i : Nat) : Sys :=
  match s.sockets[i]? with
  | some c =>
      if c.state = .connecting then
        { s with sockets := s.sockets.set i { c with state := .opened } }
      else s
  | none => s

/-- A server-side close (or error close) of socket `i`: the `onclose` handler
only logs, so `chatState.chatSocket` is not cleared. -/
def sockClosed (s : Sys) (i : Nat) : Sys :=
  match s.sockets[i]? with
  | some c => { s with sockets := s.sockets.set i { c with state := .closedSt } }
  | none => s

/-- Embedding of `handleSearch`: store the query and re-render. -/
def setSearch (s : Sys) (q : String) : Sys :=
  { s with searchQuery := q }

/-- A filter-button click: store the filter and re-render. -/
def setFilter (s : Sys) (f : FilterMode) : Sys :=
  { s with filterMode := f }

/-- Completion of a directory fetch (`loadChatRooms` `.then` handler): the
room collection is replaced wholesale. -/
def dirArrives (s : Sys) (rooms : List RoomInfo) : Sys :=
  { s with chatRooms := rooms }

/-- Events of the widget: user intents, transport events and completions of
the asynchronous requests. -/
inductive Event
  | showList
  | showDetail (roomName : String) (other : OtherUser) (isBot : Bool)
  | closeWin
  | toggleWin
  | send (text : String)
  | retryTimer
  | socketOpenEvt (i : Nat)
  | socketCloseEvt (i : Nat)
  | wsMessage (f : Frame)
  | historyResult (i : Nat) (res : HistoryResult)
  | markReadResult (res : MarkReadResult)
  | searchInput (q : String)
  | filterClick (f : FilterMode)
  | dirResult (rooms : List RoomInfo)

/-- Completion of the history fetch at position `i` of the in-flight list:
the fetch is removed from the in-flight list and its handlers run. -/
def historyStep (s : Sys) (i : Nat) (res : HistoryResult) : Sys :=
  match s.pendingLoads[i]? with
  | some ld => historyArrives { s with pendingLoads := s.pendingLoads.eraseIdx i } ld res
  | none => s

/-- One step of the event-driven control flow: each handler runs to
completion. -/
def step (s : Sys) : Event → Sys
  | .showList => showChatList s
  | .showDetail r o b => showChatDetail s r o b
  | .closeWin => closeChatWindow s
  | .toggleWin => toggleChatWindow s
  | .send t => sendMessage s t
  | .retryTimer => fireNextRetry s
  | .socketOpenEvt i => sockOpened s i
  | .socketCloseEvt i => sockClosed s i
  | .wsMessage f => onMessage s f
  | .historyResult i res => historyStep s i res
  | .markReadResult res => markReadArrives s res
  | .searchInput q => setSearch s q
  | .filterClick f => setFilter s f
  | .dirResult rooms => dirArrives s rooms

/-- Run a sequence of events from a state. -/
def run (s : Sys) : List Event → Sys
  | [] => s
  | e :: es => run (step s e) es

/-- The session-state invariant of the controller: the transport handle is
non-null exactly in detail view, an active room is set exactly in detail
view, the transport handle indexes into the socket list, and every socket
other than the active one is closed (so at most one socket is ever open). -/
def Inv (s : Sys) : Prop :=
  (s.chatSocket.isSome ↔ s.currentView = ViewMode.detail)
  ∧ (s.currentRoom.isSome ↔ s.currentView = ViewMode.detail)
  ∧ (∀ i, s.chatSocket = some i → i < s.sockets.length)
  ∧ (∀ i c, s.chatSocket ≠ some i → s.sockets[i]? = some c → c.state = SockState.closedSt)

/-! ### Concrete fixtures used by witnesses and counterexamples -/

/-- A counterpart user for concrete scenarios. -/
def exOther : OtherUser := ⟨2, "A", "", none⟩

/-- The state right after opening room `room_1_2_a` from a fresh widget: the
new socket is still connecting, so the transport is not ready. -/
def exDetail : Sys := showChatDetail (initSys 1) "room_1_2_a" exOther false

/-- Counterpart user with id 42. -/
def exUser42 : OtherUser := ⟨42, "FortyTwo", "", none⟩

/-- Counterpart user with id 9. -/
def exUser9 : OtherUser := ⟨9, "Nine", "", none⟩

/-- A history record of the stale room used in the late-arrival scenario. -/
def staleMsg : HistMsg := ⟨42, "FortyTwo", none, "stale", "2024-01-01T00:00:00Z"⟩

/-- The state produced by opening a room with an id that does not decompose
(one underscore-free segment). -/
def badDetail : Sys := showChatDetail (initSys 1) "badroom" exOther false

/-- Event trace of the late-arrival scenario: open room `room_7_42_x`, switch
to room `room_7_9_y` while the first history load is still in flight, then
let the first load's result arrive. -/
def staleEvents : List Event :=
  [.showDetail "room_7_42_x" exUser42 false,
   .showDetail "room_7_9_y" exUser9 false,
   .historyResult 0 (.ok [staleMsg])]

/-- The state after the late-arrival trace. -/
def staleScenario : Sys := run (initSys 7) staleEvents

/-- The state after a successful history load that returned zero messages. -/
def emptyLoadScenario : Sys :=
  run (initSys 7) [.showDetail "room_7_42_x" exUser42 false, .historyResult 0 (.ok [])]

/-- The room named "Anna" with three unread messages from the directory
scenario. -/
def annaRoom : RoomInfo := ⟨2, "Anna", "hello", "room_1_2_a", 3, false⟩

/-- The room named "Bob" with no unread messages from the directory
scenario. -/
def bobRoom : RoomInfo := ⟨3, "Bob", "later", "room_1_3_b", 0, false⟩

/-- A sample reachable trace used by the transport-invariant witness: open one
room, then switch to another. -/
def exEvents : List Event :=
  [.showDetail "room_1_2_a" exOther false, .showDetail "room_1_3_b" exOther false]

/-! ### Field-preservation lemmas for the socket lifecycle helpers -/

theorem closeCurrentSocket_chatSocket (s : Sys) : (closeCurrentSocket s).chatSocket = none := by
  unfold closeCurrentSocket
  cases h : s.chatSocket <;> simp [h]

theorem closeCurrentSocket_pane (s : Sys) : (closeCurrentSocket s).pane = s.pane := by
  unfold closeCurrentSocket
  cases h : s.chatSocket <;> simp

theorem closeCurrentSocket_currentView (s : Sys) :
    (closeCurrentSocket s).currentView = s.currentView := by
  unfold closeCurrentSocket
  cases h : s.chatSocket <;> simp

theorem closeCurrentSocket_currentRoom (s : Sys) :
    (closeCurrentSocket s).currentRoom = s.currentRoom := by
  unfold closeCurrentSocket
  cases h : s.chatSocket <;> simp

theorem closeCurrentSocket_currentIsBot (s : Sys) :
    (closeCurrentSocket s).currentIsBot = s.currentIsBot := by
  unfold closeCurrentSocket
  cases h : s.chatSocket <;> simp

theorem closeCurrentSocket_currentUserId (s : Sys) :
    (closeCurrentSocket s).currentUserId = s.currentUserId := by
  unfold closeCurrentSocket
  cases h : s.chatSocket <;> simp

theorem closeCurrentSocket_alerts (s : Sys) : (closeCurrentSocket s).alerts = s.alerts := by
  unfold closeCurrentSocket
  cases h : s.chatSocket <;> simp

theorem closeCurrentSocket_sentFrames (s : Sys) :
    (closeCurrentSocket s).sentFrames = s.sentFrames := by
  unfold closeCurrentSocket
  cases h : s.chatSocket <;> simp

theorem closeCurrentSocket_pendingLoads (s : Sys) :
    (closeCurrentSocket s).pendingLoads = s.pendingLoads := by
  unfold closeCurrentSocket
  cases h : s.chatSocket <;> simp

theorem closeCurrentSocket_pendingRetries (s : Sys) :
    (closeCurrentSocket s).pendingRetries = s.pendingRetries := by
  unfold closeCurrentSocket
  cases h : s.chatSocket <;> simp

theorem closeCurrentSocket_pendingMarkReads (s : Sys) :
    (closeCurrentSocket s).pendingMarkReads = s.pendingMarkReads := by
  unfold closeCurrentSocket
  cases h : s.chatSocket <;> simp

theorem closeCurrentSocket_sockets_length (s : Sys) :
    (closeCurrentSocket s).sockets.length = s.sockets.length := by
  unfold closeCurrentSocket
  cases h : s.chatSocket <;> simp

attribute [simp] closeCurrentSocket_chatSocket closeCurrentSocket_pane
  closeCurrentSocket_currentView closeCurrentSocket_currentRoom
  closeCurrentSocket_currentIsBot closeCurrentSocket_currentUserId
  closeCurrentSocket_alerts closeCurrentSocket_sentFrames
  closeCurrentSocket_pendingLoads closeCurrentSocket_pendingRetries
  closeCurrentSocket_pendingMarkReads closeCurrentSocket_sockets_length

theorem connectWebSocket_pane (s : Sys) (r : String) : (connectWebSocket s r).pane = s.pane := by
  unfold connectWebSocket
  simp

theorem connectWebSocket_chatSocket (s : Sys) (r : String) :
    (connectWebSocket s r).chatSocket = some s.sockets.length := by
  unfold connectWebSocket
  simp

theorem connectWebSocket_sockets_length (s : Sys) (r : String) :
    (connectWebSocket s r).sockets.length = s.sockets.length + 1 := by
  unfold connectWebSocket
  simp

theorem connectWebSocket_currentView (s : Sys) (r : String) :
    (connectWebSocket s r).currentView = s.currentView := by
  unfold connectWebSocket
  simp

theorem connectWebSocket_currentRoom (s : Sys) (r : String) :
    (connectWebSocket s r).currentRoom = s.currentRoom := by
  unfold connectWebSocket
  simp

theorem connectWebSocket_currentIsBot (s : Sys) (r : String) :
    (connectWebSocket s r).currentIsBot = s.currentIsBot := by
  unfold connectWebSocket
  simp

theorem connectWebSocket_currentUserId (s : Sys) (r : String) :
    (connectWebSocket s r).currentUserId = s.currentUserId := by
  unfold connectWebSocket
  simp

theorem connectWebSocket_alerts (s : Sys) (r : String) :
    (connectWebSocket s r).alerts = s.alerts := by
  unfold connectWebSocket
  simp

theorem connectWebSocket_sentFrames (s : Sys) (r : String) :
    (connectWebSocket s r).sentFrames = s.sentFrames := by
  unfold connectWebSocket
  simp

theorem connectWebSocket_pendingLoads (s : Sys) (r : String) :
    (connectWebSocket s r).pendingLoads = s.pendingLoads := by
  unfold connectWebSocket
  simp

theorem connectWebSocket_pendingRetries (s : Sys) (r : String) :
    (connectWebSocket s r).pendingRetries = s.pendingRetries := by
  unfold connectWebSocket
  simp

theorem connectWebSocket_pendingMarkReads (s : Sys) (r : String) :
    (connectWebSocket s r).pendingMarkReads = s.pendingMarkReads := by
  unfold connectWebSocket
  simp

attribute [simp] connectWebSocket_pane connectWebSocket_chatSocket
  connectWebSocket_sockets_length connectWebSocket_currentView
  connectWebSocket_currentRoom connectWebSocket_currentIsBot
  connectWebSocket_currentUserId connectWebSocket_alerts
  connectWebSocket_sentFrames connectWebSocket_pendingLoads
  connectWebSocket_pendingRetries connectWebSocket_pendingMarkReads

theorem loadChatMessages_chatSocket (s : Sys) (r : String) :
    (loadChatMessages s r).chatSocket = s.chatSocket := by
  unfold loadChatMessages
  cases h : resolveOtherUserId r s.currentUserId <;> simp

theorem loadChatMessages_sockets (s : Sys) (r : String) :
    (loadChatMessages s r).sockets = s.sockets := by
  unfold loadChatMessages
  cases h : resolveOtherUserId r s.currentUserId <;> simp

theorem loadChatMessages_currentView (s : Sys) (r : String) :
    (loadChatMessages s r).currentView = s.currentView := by
  unfold loadChatMessages
  cases h : resolveOtherUserId r s.currentUserId <;> simp

theorem loadChatMessages_currentRoom (s : Sys) (r : String) :
    (loadChatMessages s r).currentRoom = s.currentRoom := by
  unfold loadChatMessages
  cases h : resolveOtherUserId r s.currentUserId <;> simp

theorem loadChatMessages_currentIsBot (s : Sys) (r : String) :
    (loadChatMessages s r).currentIsBot = s.currentIsBot := by
  unfold loadChatMessages
  cases h : resolveOtherUserId r s.currentUserId <;> simp

attribute [simp] loadChatMessages_chatSocket loadChatMessages_sockets
  loadChatMessages_currentView loadChatMessages_currentRoom
  loadChatMessages_currentIsBot

/-! ### Theorems -/

/-- C1: a frame received by the `onmessage` handler is surfaced as a new
message only if its `sender_id` differs from the current user's id or the
open session is a bot room; a live echo carrying the current user's own
`sender_id` in a non-bot room is never surfaced. -/
theorem delivery_filter_spec (s : Sys) (f : Frame) :
    (surfaces s f = true → f.sender_id ≠ some s.currentUserId ∨ s.currentIsBot = true)
    ∧ (s.currentIsBot = false → f.sender_id = some s.currentUserId → onMessage s f = s) := by
  constructor
  · intro h
    unfold surfaces at h
    rcases Bool.and_eq_true _ _ |>.mp h with ⟨-, h2⟩
    rcases Bool.or_eq_true _ _ |>.mp h2 with h3 | h3
    · exact Or.inl (by simpa using h3)
    · exact Or.inr h3
  · intro hbot hsid
    unfold onMessage
    have : surfaces s f = false := by
      unfold surfaces
      simp [hsid, hbot]
    simp [this]

theorem delivery_filter_spec_witness :
    onMessage (initSys 7) ⟨some 7, "hello", false, some "Me", none⟩ = initSys 7 :=
  (delivery_filter_spec (initSys 7) ⟨some 7, "hello", false, some "Me", none⟩).2 rfl rfl

/-- C10: a frame whose `sender_id` is absent or zero (falsy) is never surfaced,
in any room, bot rooms included. -/
theorem falsy_sender_filtered (s : Sys) (f : Frame)
    (h : f.sender_id = none ∨ f.sender_id = some 0) : onMessage s f = s := by
  unfold onMessage
  have : surfaces s f = false := by
    unfold surfaces senderTruthy
    rcases h with h | h <;> simp [h]
  simp [this]

theorem falsy_sender_filtered_witness :
    onMessage (showChatDetail (initSys 1) "room_1_2_a" exOther true)
        ⟨some 0, "hello", true, some "Bot", none⟩
      = showChatDetail (initSys 1) "room_1_2_a" exOther true :=
  falsy_sender_filtered _ _ (Or.inr rfl)

/-- C5: when a room id splits into at least three underscore-delimited parts
whose parts 1 and 2 parse as the two distinct participant ids, one of which
is the current user, resolution picks the participant id that is not the
current user's. -/
theorem counterpart_resolution (roomName : String) (cu a b : Int)
    (hlen : ¬ (jsSplitUnderscore roomName).length < 3)
    (ha : jsParseInt ((jsSplitUnderscore roomName).getD 1 "") = some a)
    (hb : jsParseInt ((jsSplitUnderscore roomName).getD 2 "") = some b)
    (hab : a ≠ b) (_hcu : a = cu ∨ b = cu) :
    resolveOtherUserId roomName cu = .resolved (some (if a = cu then b else a))
      ∧ (if a = cu then b else a) ≠ cu := by
  constructor
  · rw [resolveOtherUserId, if_neg hlen, ha, hb]
    by_cases h : a = cu
    · simp [h]
    · have : ¬ (some a = some cu) := by simpa using h
      simp [h, this]
  · by_cases h : a = cu
    · simp only [if_pos h]
      intro hbc
      exact hab (by rw [h, hbc])
    · simp only [if_neg h]
      exact h

theorem counterpart_resolution_witness :
    resolveOtherUserId "room_7_42_x" 7 = .resolved (some 42) ∧ (42 : Int) ≠ 7 := by
  have h := counterpart_resolution "room_7_42_x" 7 7 42 (by decide) (by decide) (by decide)
    (by decide) (Or.inl rfl)
  simpa using h

/-- C7: `renderChatList` keeps exactly the rooms passing the case-insensitive
substring match on the display name (when the query is non-empty) and the
`unreadCount > 0` restriction (when the filter is `unread`), in the order of
the original list; with rooms Anna (3 unread) and Bob (0 unread), the unread
filter yields exactly Anna, and the query "ann" yields exactly Anna. -/
theorem chat_list_filtering (rooms : List RoomInfo) (q : String) (f : FilterMode) :
    filteredRooms rooms q f
        = rooms.filter (fun room =>
            (decide (q = "") || nameMatches room q)
              && (decide (f = FilterMode.all) || decide (room.unreadCount > 0)))
    ∧ (filteredRooms rooms q f).Sublist rooms
    ∧ filteredRooms [annaRoom, bobRoom] "" .unread = [annaRoom]
    ∧ filteredRooms [annaRoom, bobRoom] "ann" .all = [annaRoom] := by
  refine ⟨?_, ?_, by decide, by decide⟩
  · unfold filteredRooms
    by_cases hq : q = "" <;> cases f <;>
      simp [hq, List.filter_filter, Bool.and_comm]
  · unfold filteredRooms
    by_cases hq : q = "" <;> cases f <;> simp [hq]

/-- C4: `sendMessage` is a no-op on text that trims to empty; with non-empty
text and no active room it raises the no-active-room alert and leaves the
pane untouched; otherwise it appends the optimistic message to the pane and,
when the socket is ready, delegates the trimmed text to the transport. -/
theorem sendMessage_guards (s : Sys) (input : String) :
    (jsTrim input = "" → sendMessage s input = s)
    ∧ (jsTrim input ≠ "" → s.currentRoom = none →
        sendMessage s input = { s with alerts := s.alerts ++ [AlertKind.selectConversation] })
    ∧ (∀ r, jsTrim input ≠ "" → s.currentRoom = some r →
        (sendMessage s input).pane = paneAppend s.pane (mkOptimisticMsg s (jsTrim input))
        ∧ (socketReady s = true → ∀ i, s.chatSocket = some i →
            (sendMessage s input).sentFrames = s.sentFrames ++ [(i, jsTrim input)])) := by
  refine ⟨?_, ?_, ?_⟩
  · intro h
    unfold sendMessage
    simp [h]
  · intro h hroom
    unfold sendMessage
    simp [h, hroom]
  · intro r h hroom
    constructor
    · unfold sendMessage
      simp only [if_neg h, hroom]
      split
      · split <;> rfl
      · simp
    · intro hready i hi
      unfold sendMessage
      simp only [if_neg h, hroom]
      split
      · simp [hi]
      · next hcond => exact absurd hready hcond

theorem sendMessage_guards_witness :
    sendMessage (initSys 7) "   " = initSys 7
      ∧ sendMessage (initSys 7) "hi"
          = { initSys 7 with alerts := (initSys 7).alerts ++ [AlertKind.selectConversation] } :=
  ⟨(sendMessage_guards (initSys 7) "   ").1 (by decide),
   (sendMessage_guards (initSys 7) "hi").2.1 (by decide) rfl⟩

/-- C3: a send of non-empty text with an active room but a transport that is
not ready performs exactly one reconnect (one new socket, which becomes the
active one) and schedules exactly one retry with a 500 ms delay, with the
optimistic message already appended; when the retry fires with the
transport still not ready, the only effect is the user-visible failure
alert — the pane (and with it the optimistic message) is untouched, no
frame is sent, and no further retry or reconnect occurs. -/
theorem send_retry_policy (s : Sys) (input : String) (r : String)
    (hroom : s.currentRoom = some r) (hne : jsTrim input ≠ "")
    (hnr : socketReady s = false) :
    (sendMessage s input).sockets.length = s.sockets.length + 1
    ∧ (sendMessage s input).chatSocket = some s.sockets.length
    ∧ (sendMessage s input).pendingRetries = s.pendingRetries ++ [⟨jsTrim input, 500⟩]
    ∧ (sendMessage s input).pane = paneAppend s.pane (mkOptimisticMsg s (jsTrim input))
    ∧ (∀ s2 t, socketReady s2 = false →
        retryStep s2 t = { s2 with alerts := s2.alerts ++ [AlertKind.unableToConnect] }) := by
  have hsend : sendMessage s input
      = { connectWebSocket { s with pane := paneAppend s.pane (mkOptimisticMsg s (jsTrim input)) } r
          with pendingRetries := s.pendingRetries ++ [⟨jsTrim input, 500⟩] } := by
    unfold sendMessage
    simp only [if_neg hne, hroom]
    split
    · next hcond =>
        have hh : socketReady s = true := hcond
        rw [hh] at hnr
        exact absurd hnr (by simp)
    · simp
  refine ⟨?_, ?_, ?_, ?_, ?_⟩
  · rw [hsend]
    simp
  · rw [hsend]
    simp
  · rw [hsend]
  · rw [hsend]
    simp
  · intro s2 t h2
    unfold retryStep
    simp [h2]

theorem send_retry_policy_witness :
    (sendMessage exDetail "hi").sockets.length = exDetail.sockets.length + 1
    ∧ (sendMessage exDetail "hi").chatSocket = some exDetail.sockets.length
    ∧ (sendMessage exDetail "hi").pendingRetries = exDetail.pendingRetries ++ [⟨jsTrim "hi", 500⟩]
    ∧ (sendMessage exDetail "hi").pane
        = paneAppend exDetail.pane (mkOptimisticMsg exDetail (jsTrim "hi"))
    ∧ retryStep (sendMessage exDetail "hi") ⟨jsTrim "hi", 500⟩
        = { sendMessage exDetail "hi" with
            alerts := (sendMessage exDetail "hi").alerts ++ [AlertKind.unableToConnect] } := by
  have h := send_retry_policy exDetail "hi" "room_1_2_a" (by decide) (by decide) (by decide)
  exact ⟨h.1, h.2.1, h.2.2.1, h.2.2.2.1, h.2.2.2.2 _ _ (by decide)⟩

/-- C6 counterexample: opening the malformed room `badroom` shows the
invalid-room error and issues no history fetch, but a transport connection
IS opened for it — `connectWebSocket` runs unconditionally, so the claim
that no transport is opened is false at this input. -/
theorem malformed_room_counterexample :
    badDetail.pane = Pane.placeholder .invalidRoom
    ∧ badDetail.pendingLoads = []
    ∧ badDetail.chatSocket = some 0
    ∧ badDetail.sockets = [⟨"badroom", false, .connecting⟩] := by
  decide

/-- C6 amended: opening a room whose id has fewer than three
underscore-delimited parts shows the malformed-room error state in the
message pane and issues no history fetch, but it still opens a transport
connection for that room (one new socket, which becomes the active
transport). -/
theorem malformed_room_behavior (s : Sys) (roomName : String) (o : OtherUser) (b : Bool)
    (hne : roomName ≠ "") (hlen : (jsSplitUnderscore roomName).length < 3) :
    (showChatDetail s roomName o b).pane = Pane.placeholder .invalidRoom
    ∧ (showChatDetail s roomName o b).pendingLoads = s.pendingLoads
    ∧ (showChatDetail s roomName o b).sockets.length = s.sockets.length + 1
    ∧ (showChatDetail s roomName o b).chatSocket = some s.sockets.length := by
  have hres : ∀ cu, resolveOtherUserId roomName cu = .malformed := by
    intro cu
    unfold resolveOtherUserId
    rw [if_pos hlen]
  unfold showChatDetail
  rw [if_neg hne]
  unfold loadChatMessages
  simp only [hres]
  refine ⟨?_, ?_, ?_, ?_⟩ <;> simp

theorem malformed_room_behavior_witness :
    (showChatDetail (initSys 1) "badroom" exOther false).pane = Pane.placeholder .invalidRoom
    ∧ (showChatDetail (initSys 1) "badroom" exOther false).pendingLoads
        = (initSys 1).pendingLoads
    ∧ (showChatDetail (initSys 1) "badroom" exOther false).sockets.length
        = (initSys 1).sockets.length + 1
    ∧ (showChatDetail (initSys 1) "badroom" exOther false).chatSocket
        = some (initSys 1).sockets.length :=
  malformed_room_behavior (initSys 1) "badroom" exOther false (by decide) (by decide)

/-- C8 counterexample: the history result for `room_7_42_x` arrives after the
user switched to `room_7_9_y`, and it is rendered into the now-active view
anyway — nothing checks it against the current room, so the claim that a
late result is discarded is false on this trace. -/
theorem stale_history_counterexample :
    staleScenario.currentRoom = some "room_7_9_y"
    ∧ staleScenario.pane = Pane.messages [⟨"stale", "FortyTwo", false, 42⟩] := by
  decide

/-- C8 amended: a history result is never discarded: whenever a non-empty
result arrives, it is rendered into the message pane and the read-receipt
is issued, with no comparison of its room against the active room. -/
theorem stale_history_rendered (s : Sys) (ld : PendingLoad) (msgs : List HistMsg)
    (h : msgs ≠ []) :
    historyArrives s ld (.ok msgs)
      = { s with
          pane := Pane.messages (msgs.map (renderHistMsg s))
          pendingMarkReads := s.pendingMarkReads ++ [ld.otherUserId] } := by
  unfold historyArrives
  simp [h]

theorem stale_history_rendered_witness :
    historyArrives (initSys 7) ⟨"room_7_42_x", some 42⟩ (.ok [staleMsg])
      = { initSys 7 with
          pane := Pane.messages ([staleMsg].map (renderHistMsg (initSys 7)))
          pendingMarkReads := (initSys 7).pendingMarkReads ++ [some 42] } :=
  stale_history_rendered (initSys 7) ⟨"room_7_42_x", some 42⟩ [staleMsg] (by decide)

/-- C9 counterexample: a successful history load whose message list is empty
takes the early `No messages yet` return, so no read-receipt POST is
issued — the claim that every successful load triggers one is false at this
input. -/
theorem empty_history_counterexample :
    emptyLoadScenario.pane = Pane.placeholder .noMessages
    ∧ emptyLoadScenario.pendingMarkReads = [] := by
  decide

/-- C9 amended: after every successful history load that returns at least one
message, a read-receipt POST is issued for the resolved counterpart id; a
successful read-receipt response triggers a directory refresh; and the
outcome of the read-receipt call never affects the rendered pane. -/
theorem read_receipt_flow (s : Sys) (ld : PendingLoad) (msgs : List HistMsg)
    (h : msgs ≠ []) :
    (historyArrives s ld (.ok msgs)).pendingMarkReads = s.pendingMarkReads ++ [ld.otherUserId]
    ∧ (∀ s2 n, markReadArrives s2 (.ok true n)
          = { s2 with directoryFetches := s2.directoryFetches + 1 })
    ∧ (∀ s2 res, (markReadArrives s2 res).pane = s2.pane) := by
  refine ⟨?_, ?_, ?_⟩
  · unfold historyArrives
    simp [h]
  · intro s2 n
    rfl
  · intro s2 res
    unfold markReadArrives
    cases res with
    | err => rfl
    | ok success n => cases success <;> rfl

/-! ### Preservation of the session-state invariant (C2) -/

theorem connectWebSocket_sockets (s : Sys) (r : String) :
    (connectWebSocket s r).sockets
      = (closeCurrentSocket s).sockets
          ++ [⟨r, (closeCurrentSocket s).currentIsBot, .connecting⟩] := rfl

theorem closeCurrentSocket_allClosed (s : Sys)
    (h4 : ∀ i c, s.chatSocket ≠ some i → s.sockets[i]? = some c →
      c.state = SockState.closedSt) :
    ∀ (i : Nat) (c : SocketConn),
      (closeCurrentSocket s).sockets[i]? = some c → c.state = SockState.closedSt := by
  cases hcs : s.chatSocket with
  | none =>
      intro i c hc
      have hsock : (closeCurrentSocket s).sockets = s.sockets := by
        unfold closeCurrentSocket
        rw [hcs]
      rw [hsock] at hc
      exact h4 i c (by simp [hcs]) hc
  | some j =>
      intro i c hc
      have hsock : (closeCurrentSocket s).sockets
          = s.sockets.set j (closeSock (s.sockets.getD j ⟨"", false, .closedSt⟩)) := by
        unfold closeCurrentSocket
        rw [hcs]
      rw [hsock, List.getElem?_set] at hc
      split at hc
      · split at hc
        · injection hc with hcc
          rw [← hcc]
          rfl
        · exact absurd hc (by simp)
      · next hne =>
          exact h4 i c (by rw [hcs]; intro heq; exact hne (Option.some_inj.mp heq)) hc

theorem connect_all_others_closed (s : Sys) (r : String)
    (h4 : ∀ i c, s.chatSocket ≠ some i → s.sockets[i]? = some c →
      c.state = SockState.closedSt) :
    ∀ (i : Nat) (c : SocketConn), (connectWebSocket s r).chatSocket ≠ some i →
      (connectWebSocket s r).sockets[i]? = some c → c.state = SockState.closedSt := by
  intro i c hne hc
  have hall := closeCurrentSocket_allClosed s h4
  rw [connectWebSocket_chatSocket] at hne
  have hil : i ≠ s.sockets.length := fun h => hne (by rw [h])
  have hlen : (closeCurrentSocket s).sockets.length = s.sockets.length :=
    closeCurrentSocket_sockets_length s
  rw [connectWebSocket_sockets] at hc
  rcases Nat.lt_or_ge i (closeCurrentSocket s).sockets.length with hlt | hge
  · rw [List.getElem?_append_left hlt] at hc
    exact hall i c hc
  · rw [List.getElem?_append_right hge] at hc
    rw [List.getElem?_eq_none (by simp; omega)] at hc
    exact absurd hc (by simp)

theorem inv_initSys (uid : Int) : Inv (initSys uid) := by
  refine ⟨by simp [initSys], by simp [initSys], ?_, ?_⟩
  · intro i hi
    simp [initSys] at hi
  · intro i c _ hc
    simp [initSys] at hc

theorem inv_showChatList (s : Sys)
    (h4 : ∀ (i : Nat) (c : SocketConn), s.chatSocket ≠ some i → s.sockets[i]? = some c →
      c.state = SockState.closedSt) :
    Inv (showChatList s) := by
  unfold showChatList
  refine ⟨?_, ?_, ?_, ?_⟩
  · rw [closeCurrentSocket_chatSocket, closeCurrentSocket_currentView]
    simp
  · rw [closeCurrentSocket_currentRoom, closeCurrentSocket_currentView]
    simp
  · intro i hi
    rw [closeCurrentSocket_chatSocket] at hi
    exact absurd hi (by simp)
  · intro i c _ hc
    refine closeCurrentSocket_allClosed _ ?_ i c hc
    intro i c hne hc2
    exact h4 i c hne hc2

theorem inv_closeChatWindow (s : Sys)
    (h4 : ∀ (i : Nat) (c : SocketConn), s.chatSocket ≠ some i → s.sockets[i]? = some c →
      c.state = SockState.closedSt) :
    Inv (closeChatWindow s) := by
  unfold closeChatWindow
  apply inv_showChatList
  intro i c _ hc
  refine closeCurrentSocket_allClosed _ ?_ i c hc
  intro i c hne2 hc2
  exact h4 i c hne2 hc2

theorem showChatDetail_chatSocket (s : Sys) (r : String) (o : OtherUser) (b : Bool)
    (hr : r ≠ "") : (showChatDetail s r o b).chatSocket = some s.sockets.length := by
  unfold showChatDetail
  simp [hr]

theorem inv_showChatDetail (s : Sys) (r : String) (o : OtherUser) (b : Bool)
    (h : Inv s) : Inv (showChatDetail s r o b) := by
  by_cases hr : r = ""
  · unfold showChatDetail
    rw [if_pos hr]
    exact h
  · unfold showChatDetail
    rw [if_neg hr]
    show Inv (connectWebSocket (loadChatMessages
      { s with
        currentView := .detail
        currentRoom := some r
        currentOtherUserId := some o.user_id
        currentIsBot := b
        pane := .placeholder .loading } r) r)
    refine ⟨?_, ?_, ?_, ?_⟩
    · rw [connectWebSocket_chatSocket, connectWebSocket_currentView, loadChatMessages_currentView]
      simp
    · rw [connectWebSocket_currentRoom, loadChatMessages_currentRoom]
      rw [connectWebSocket_currentView, loadChatMessages_currentView]
      simp
    · intro i hi
      rw [connectWebSocket_chatSocket] at hi
      rw [connectWebSocket_sockets_length]
      injection hi with hii
      omega
    · intro i c hne hc
      refine connect_all_others_closed _ r ?_ i c hne hc
      simp only [loadChatMessages_chatSocket, loadChatMessages_sockets]
      exact fun i c hne2 hc2 => h.2.2.2 i c hne2 hc2

theorem inv_sendMessage (s : Sys) (input : String) (h : Inv s) : Inv (sendMessage s input) := by
  by_cases he : jsTrim input = ""
  · unfold sendMessage
    simp only [he, if_pos]
    exact h
  · unfold sendMessage
    simp only [if_neg he]
    split
    · exact ⟨h.1, h.2.1, h.2.2.1, h.2.2.2⟩
    · next room hroom =>
        have hview : s.currentView = ViewMode.detail := h.2.1.mp (by rw [hroom]; rfl)
        split
        · split
          · exact ⟨h.1, h.2.1, h.2.2.1, h.2.2.2⟩
          · exact ⟨h.1, h.2.1, h.2.2.1, h.2.2.2⟩
        · refine ⟨?_, ?_, ?_, ?_⟩
          · simp [hview]
          · simp [hroom, hview]
          · intro i hi
            simp at hi ⊢
            omega
          · intro i c hne hc
            refine connect_all_others_closed _ room ?_ i c hne hc
            intro i c hne2 hc2
            exact h.2.2.2 i c hne2 hc2

theorem inv_retryStep (s : Sys) (t : RetryTimer) (h : Inv s) : Inv (retryStep s t) := by
  unfold retryStep
  split
  · split
    · exact ⟨h.1, h.2.1, h.2.2.1, h.2.2.2⟩
    · exact ⟨h.1, h.2.1, h.2.2.1, h.2.2.2⟩
  · exact ⟨h.1, h.2.1, h.2.2.1, h.2.2.2⟩

theorem inv_fireNextRetry (s : Sys) (h : Inv s) : Inv (fireNextRetry s) := by
  unfold fireNextRetry
  cases hpr : s.pendingRetries with
  | nil => exact h
  | cons t rest => exact inv_retryStep _ t ⟨h.1, h.2.1, h.2.2.1, h.2.2.2⟩

theorem inv_sockOpened (s : Sys) (i : Nat) (h : Inv s) : Inv (sockOpened s i) := by
  unfold sockOpened
  cases hg : s.sockets[i]? with
  | none => exact h
  | some c =>
      show Inv (if c.state = SockState.connecting
        then { s with sockets := s.sockets.set i { c with state := SockState.opened } }
        else s)
      split
      · next hconn =>
          refine ⟨h.1, h.2.1, ?_, ?_⟩
          · intro j hj
            have hlt := h.2.2.1 j hj
            simpa [List.length_set] using hlt
          · intro j d hne hd
            rw [List.getElem?_set] at hd
            split at hd
            · next hij =>
                by_cases hcsi : s.chatSocket = some i
                · rw [hij] at hcsi
                  exact absurd hcsi hne
                · have hcl := h.2.2.2 i c hcsi hg
                  rw [hconn] at hcl
                  exact absurd hcl (by decide)
            · exact h.2.2.2 j d hne hd
      · exact h

theorem inv_sockClosed (s : Sys) (i : Nat) (h : Inv s) : Inv (sockClosed s i) := by
  unfold sockClosed
  cases hg : s.sockets[i]? with
  | none => exact h
  | some c =>
      show Inv { s with sockets := s.sockets.set i { c with state := SockState.closedSt } }
      refine ⟨h.1, h.2.1, ?_, ?_⟩
      · intro j hj
        have hlt := h.2.2.1 j hj
        simpa [List.length_set] using hlt
      · intro j d hne hd
        rw [List.getElem?_set] at hd
        split at hd
        · split at hd
          · injection hd with hdd
            rw [← hdd]
          · exact absurd hd (by simp)
        · exact h.2.2.2 j d hne hd

theorem inv_onMessage (s : Sys) (f : Frame) (h : Inv s) : Inv (onMessage s f) := by
  unfold onMessage
  split
  · exact ⟨h.1, h.2.1, h.2.2.1, h.2.2.2⟩
  · exact h

theorem inv_historyArrives (s : Sys) (ld : PendingLoad) (res : HistoryResult) (h : Inv s) :
    Inv (historyArrives s ld res) := by
  unfold historyArrives
  cases res with
  | err => exact ⟨h.1, h.2.1, h.2.2.1, h.2.2.2⟩
  | ok msgs =>
      show Inv (if msgs = [] then { s with pane := .placeholder .noMessages }
        else { s with
          pane := .messages (msgs.map (renderHistMsg s))
          pendingMarkReads := s.pendingMarkReads ++ [ld.otherUserId] })
      split
      · exact ⟨h.1, h.2.1, h.2.2.1, h.2.2.2⟩
      · exact ⟨h.1, h.2.1, h.2.2.1, h.2.2.2⟩

theorem inv_historyStep (s : Sys) (i : Nat) (res : HistoryResult) (h : Inv s) :
    Inv (historyStep s i res) := by
  unfold historyStep
  cases hg : s.pendingLoads[i]? with
  | none => exact h
  | some ld =>
      exact inv_historyArrives _ ld res ⟨h.1, h.2.1, h.2.2.1, h.2.2.2⟩

theorem inv_markReadArrives (s : Sys) (res : MarkReadResult) (h : Inv s) :
    Inv (markReadArrives s res) := by
  unfold markReadArrives
  cases res with
  | err => exact h
  | ok success n =>
      cases success with
      | false => exact h
      | true => exact ⟨h.1, h.2.1, h.2.2.1, h.2.2.2⟩

theorem inv_toggleChatWindow (s : Sys) (h : Inv s) : Inv (toggleChatWindow s) := by
  unfold toggleChatWindow
  show Inv (if (!s.isOpen) = true
    then { s with isOpen := !s.isOpen, directoryFetches := s.directoryFetches + 1 }
    else { s with isOpen := !s.isOpen })
  split
  · exact ⟨h.1, h.2.1, h.2.2.1, h.2.2.2⟩
  · exact ⟨h.1, h.2.1, h.2.2.1, h.2.2.2⟩

theorem inv_step (s : Sys) (e : Event) (h : Inv s) : Inv (step s e) := by
  cases e with
  | showList => exact inv_showChatList s h.2.2.2
  | showDetail r o b => exact inv_showChatDetail s r o b h
  | closeWin => exact inv_closeChatWindow s h.2.2.2
  | toggleWin => exact inv_toggleChatWindow s h
  | send t => exact inv_sendMessage s t h
  | retryTimer => exact inv_fireNextRetry s h
  | socketOpenEvt i => exact inv_sockOpened s i h
  | socketCloseEvt i => exact inv_sockClosed s i h
  | wsMessage f => exact inv_onMessage s f h
  | historyResult i res => exact inv_historyStep s i res h
  | markReadResult res => exact inv_markReadArrives s res h
  | searchInput q => exact ⟨h.1, h.2.1, h.2.2.1, h.2.2.2⟩
  | filterClick fm => exact ⟨h.1, h.2.1, h.2.2.1, h.2.2.2⟩
  | dirResult rooms => exact ⟨h.1, h.2.1, h.2.2.1, h.2.2.2⟩

theorem inv_run (s : Sys) (es : List Event) (h : Inv s) : Inv (run s es) := by
  induction es generalizing s with
  | nil => exact h
  | cons e es ih => exact ih (step s e) (inv_step s e h)

theorem read_receipt_flow_witness :
    (historyArrives (initSys 7) ⟨"room_7_42_x", some 42⟩ (.ok [staleMsg])).pendingMarkReads
        = (initSys 7).pendingMarkReads ++ [some 42]
    ∧ markReadArrives (initSys 7) (.ok true 3)
        = { initSys 7 with directoryFetches := (initSys 7).directoryFetches + 1 }
    ∧ (markReadArrives (initSys 7) .err).pane = (initSys 7).pane := by
  have h := read_receipt_flow (initSys 7) ⟨"room_7_42_x", some 42⟩ [staleMsg] (by decide)
  exact ⟨h.1, h.2.1 (initSys 7) 3, h.2.2 (initSys 7) .err⟩

/-- C2: in every state reachable from the initial widget state, the transport
handle is non-null iff the view mode is detail, and at most one socket is
ever non-closed at an instant; returning to the list view or closing the
widget closes every socket and nulls the handle; and opening a room from
any reachable state makes the one new socket the active transport while
every previously created socket is closed. -/
theorem transport_lifecycle_invariant (uid : Int) (es : List Event) :
    ((run (initSys uid) es).chatSocket.isSome
        ↔ (run (initSys uid) es).currentView = ViewMode.detail)
    ∧ (∀ (i j : Nat) (ci cj : SocketConn), (run (initSys uid) es).sockets[i]? = some ci →
        (run (initSys uid) es).sockets[j]? = some cj →
        ci.state ≠ SockState.closedSt → cj.state ≠ SockState.closedSt → i = j)
    ∧ (showChatList (run (initSys uid) es)).chatSocket = none
    ∧ (∀ (i : Nat) (c : SocketConn),
        (showChatList (run (initSys uid) es)).sockets[i]? = some c →
        c.state = SockState.closedSt)
    ∧ (closeChatWindow (run (initSys uid) es)).chatSocket = none
    ∧ (∀ (i : Nat) (c : SocketConn),
        (closeChatWindow (run (initSys uid) es)).sockets[i]? = some c →
        c.state = SockState.closedSt)
    ∧ (∀ (r : String) (o : OtherUser) (b : Bool), r ≠ "" →
        (showChatDetail (run (initSys uid) es) r o b).chatSocket
            = some (run (initSys uid) es).sockets.length
        ∧ (∀ (i : Nat) (c : SocketConn), i ≠ (run (initSys uid) es).sockets.length →
            (showChatDetail (run (initSys uid) es) r o b).sockets[i]? = some c →
            c.state = SockState.closedSt)) := by
  have hinv : Inv (run (initSys uid) es) := inv_run (initSys uid) es (inv_initSys uid)
  obtain ⟨h1, h2, h3, h4⟩ := hinv
  refine ⟨h1, ?_, ?_, ?_, ?_, ?_, ?_⟩
  · intro i j ci cj hci hcj hni hnj
    by_cases hcsi : (run (initSys uid) es).chatSocket = some i
    · by_cases hcsj : (run (initSys uid) es).chatSocket = some j
      · rw [hcsi] at hcsj
        exact Option.some_inj.mp hcsj
      · exact absurd (h4 j cj hcsj hcj) hnj
    · exact absurd (h4 i ci hcsi hci) hni
  · exact closeCurrentSocket_chatSocket _
  · intro i c hc
    unfold showChatList at hc
    refine closeCurrentSocket_allClosed _ ?_ i c hc
    intro i c hne hc2
    exact h4 i c hne hc2
  · exact closeCurrentSocket_chatSocket _
  · intro i c hc
    unfold closeChatWindow showChatList at hc
    refine closeCurrentSocket_allClosed _ ?_ i c hc
    intro i c _ hc2
    refine closeCurrentSocket_allClosed _ ?_ i c hc2
    intro i c hne3 hc3
    exact h4 i c hne3 hc3
  · intro r o b hr
    refine ⟨showChatDetail_chatSocket _ r o b hr, ?_⟩
    intro i c hi hc
    have hinv2 : Inv (showChatDetail (run (initSys uid) es) r o b) :=
      inv_showChatDetail _ r o b ⟨h1, h2, h3, h4⟩
    refine hinv2.2.2.2 i c ?_ hc
    rw [showChatDetail_chatSocket _ r o b hr]
    intro heq
    exact hi (Option.some_inj.mp heq).symm

theorem transport_lifecycle_witness :
    ((run (initSys 1) exEvents).chatSocket.isSome
        ↔ (run (initSys 1) exEvents).currentView = ViewMode.detail)
    ∧ (showChatList (run (initSys 1) exEvents)).chatSocket = none
    ∧ (showChatDetail (run (initSys 1) exEvents) "room_1_9_z" exOther false).chatSocket
        = some (run (initSys 1) exEvents).sockets.length := by
  have h := transport_lifecycle_invariant 1 exEvents
  exact ⟨h.1, h.2.2.1, (h.2.2.2.2.2.2 "room_1_9_z" exOther false (by decide)).1⟩

end ChatWidget
